import Mathlib

/-!
Verification development for the agentic RAG workflow repository
(`agent.py`, `memory_manager.py`).

The Python code is shallowly embedded: pure helpers become Lean functions on
`String`/`List`; every external call (LLM chains, retriever, memory backends)
is modelled by an explicit oracle parameter recording the call's outcome
(either a returned value or a raised exception).  String primitives used by
the Python code (`strip`, `lower`, `replace`, slicing, `in`, `join`) are
re-implemented structurally on `List Char` so that all definitions reduce in
the kernel.
-/

/-! ## Python string primitives -/

/-- Python `len(s)` (number of code points). -/
def pyLen (s : String) : Nat := s.data.length

/-- Python slicing `s[:n]`. -/
def pyTake (s : String) (n : Nat) : String := String.mk (s.data.take n)

/-- Python `s.strip()`: drop whitespace from both ends. -/
def pyStrip (s : String) : String :=
  String.mk (((s.data.dropWhile Char.isWhitespace).reverse.dropWhile Char.isWhitespace).reverse)

/-- Python `s.lower()` (ASCII case folding, which covers all strings in the code). -/
def pyLower (s : String) : String := String.mk (s.data.map Char.toLower)

/-- One fuel-indexed pass of Python `str.replace`: replaces non-overlapping
occurrences of `pat` left to right.  The fuel is only a structural-recursion
device; `fuel = l.length` always suffices because each step consumes at least
one character. -/
def replaceAllAux (pat repl : List Char) : Nat → List Char → List Char
  | 0, l => l
  | _, [] => []
  | Nat.succ fuel, c :: t =>
      if pat ≠ [] ∧ pat.isPrefixOf (c :: t) then
        repl ++ replaceAllAux pat repl fuel ((c :: t).drop pat.length)
      else
        c :: replaceAllAux pat repl fuel t

/-- Python `s.replace(pat, repl)` (for the non-empty patterns used in the code). -/
def pyReplace (s pat repl : String) : String :=
  String.mk (replaceAllAux pat.data repl.data s.data.length s.data)

/-- Substring test on character lists (Python `sub in s`). -/
def containsSub (sub : List Char) : List Char → Bool
  | [] => sub.isEmpty
  | c :: t => sub.isPrefixOf (c :: t) || containsSub sub t

/-- Python `sub in s`. -/
def pyContains (s sub : String) : Bool := containsSub sub.data s.data

/-- Python `"sep".join(xs)`. -/
def pyJoin (sep : String) : List String → String
  | [] => ""
  | [x] => x
  | x :: xs => x ++ sep ++ pyJoin sep xs

/-! ## JSON-ish values and `parse_json_safe` (agent.py lines 27-41)

`json.loads` / `ast.literal_eval` are Python standard-library decoders,
external to the repository; they are modelled as oracle functions returning
`Option PyJson` (`none` = the decoder raised). -/

/-- Python values produced by the two decoders (`dict`, `str`, `list` cover
every shape the agent inspects). -/
inductive PyJson where
  | jstr (s : String)
  | jdict (fields : List (String × PyJson))
  | jlist (items : List PyJson)

/-- Python `d.get(k)`: `Except.error` models the `AttributeError` raised when
the decoded value is not a dict; `Except.ok none` is Python's `None` for a
missing key. -/
def pyGet : PyJson → String → Except Unit (Option PyJson)
  | .jdict fs, k => .ok ((fs.find? (fun p => p.1 == k)).map Prod.snd)
  | _, _ => .error ()

/-- The cleanup performed at the top of `parse_json_safe`:
`text_output.strip().replace("```json", "").replace("```", "")`. -/
def cleanText (text_output : String) : String :=
  pyReplace (pyReplace (pyStrip text_output) "```json" "") "```" ""

/-- `parse_json_safe` (agent.py lines 27-41): strict `json.loads`, then
`ast.literal_eval`, then the keyword heuristic returning
`{"score": "yes"}` when `"yes"` occurs in the lowered text and
`{"score": "no"}` otherwise. -/
def parse_json_safe (jsonDec astDec : String → Option PyJson) (text_output : String) : PyJson :=
  let text := cleanText text_output
  match jsonDec text with
  | some v => v
  | none =>
    match astDec text with
    | some v => v
    | none =>
      if pyContains (pyLower text) "yes" then PyJson.jdict [("score", PyJson.jstr "yes")]
      else PyJson.jdict [("score", PyJson.jstr "no")]

/-! ## Agent state (agent.py `AgentState`) -/

/-- One record of `engine.hybrid_search` / `engine.get_page_content` output:
`{content, source, type, ...}` (`type` is spelled `rtype`). -/
structure RetrievalResult where
  content : String
  source : String
  rtype : String
deriving Repr, DecidableEq

/-- The `AgentState` TypedDict.  Nodes return partial updates and LangGraph
merges them by overwriting the returned keys (all channels are last-value),
so each node is embedded as a function producing the merged successor state:
fields the node does not return keep their previous value. -/
structure AgentState where
  question : String
  original_question : String
  domain : String
  user_id : String
  session_id : String
  documents : List String
  document_sources : List String
  retrieval_results : List RetrievalResult
  generation : String
  is_grounded : Bool
  is_memory_question : Bool
  is_page_question : Bool
  page_number : Option Nat
  retries : Nat
  memory_context : String
  long_term_memory : String
  should_store_memory : Bool
  tool_calls : List PyJson
  tool_result : PyJson
  reasoning_steps : List String
  web_search_results : String

/-- The initial state built by `ByteMeAgent.invoke` (agent.py lines 1090-1112). -/
def mkInitialState (question domain user_id session_id : String) : AgentState :=
  { question := question
    original_question := question
    domain := domain
    user_id := user_id
    session_id := session_id
    documents := []
    document_sources := []
    retrieval_results := []
    generation := ""
    is_grounded := false
    is_memory_question := false
    is_page_question := false
    page_number := none
    retries := 0
    memory_context := ""
    long_term_memory := ""
    should_store_memory := false
    tool_calls := []
    tool_result := PyJson.jdict []
    reasoning_steps := []
    web_search_results := "" }

/-! ## Question classifier (agent.py lines 361-399)

`_is_memory_question` is a case-insensitive substring test against a fixed
lexicon; `_extract_page_number` tries an ordered list of regular expressions
with `re.search` and returns the first captured integer.  Each regex is
re-implemented as a direct matcher on `List Char`; these patterns only use
literals, `\s*` / `\s+`, an optional literal group and a `\d+` capture, so
greedy matching without backtracking is equivalent (argued per pattern). -/

def memory_keywords : List String :=
  ["summarize", "summary", "what did we", "what have we",
   "discussed", "talked about", "conversation so far",
   "recap", "previous", "earlier", "remember when",
   "you said", "i said", "we discussed", "our conversation",
   "what was", "remind me", "go over", "review",
   "so far", "up to now", "until now", "thus far"]

/-- `_is_memory_question`. -/
def is_memory_question (question : String) : Bool :=
  memory_keywords.any (fun k => pyContains (pyLower question) k)

/-- Match a literal at the head of the input, returning the rest. -/
def matchLit (lit : String) (l : List Char) : Option (List Char) :=
  if lit.data.isPrefixOf l then some (l.drop lit.data.length) else none

/-- `\s*`. -/
def skipWs (l : List Char) : List Char := l.dropWhile Char.isWhitespace

/-- `\s+`. -/
def wsPlus : List Char → Option (List Char)
  | [] => none
  | c :: t => if c.isWhitespace then some (skipWs t) else none

/-- Leading digit run to a `Nat` (Python `int` on the `\d+` capture). -/
def digitsToNat (ds : List Char) : Nat :=
  ds.foldl (fun n c => n * 10 + (c.toNat - '0'.toNat)) 0

/-- `(\d+)` capture: require at least one digit. -/
def captureDigits (l : List Char) : Option Nat :=
  let ds := l.takeWhile Char.isDigit
  if ds.isEmpty then none else some (digitsToNat ds)

/-- `(\d+)` capture that also returns the rest of the input. -/
def captureDigitsRest (l : List Char) : Option (Nat × List Char) :=
  let ds := l.takeWhile Char.isDigit
  if ds.isEmpty then none else some (digitsToNat ds, l.dropWhile Char.isDigit)

/-- `(?:st|nd|rd|th)?`: the ordinal suffix is followed by `\s+` in every use,
so consuming it greedily is equivalent to regex backtracking. -/
def dropOrdinal (l : List Char) : List Char :=
  match matchLit "st" l with
  | some r => r
  | none => match matchLit "nd" l with
    | some r => r
    | none => match matchLit "rd" l with
      | some r => r
      | none => match matchLit "th" l with
        | some r => r
        | none => l

/-- `\.?`: the optional dot is followed by `\s*(\d+)`, so consuming a present
dot greedily is equivalent. -/
def dropOptDot : List Char → List Char
  | [] => []
  | c :: t => if c = '.' then t else c :: t

/-- `page\s*(?:number\s*)?(\d+)` at the current position. -/
def pagePat1 (l : List Char) : Option Nat :=
  (matchLit "page" l).bind fun l1 =>
    let l2 := skipWs l1
    match (matchLit "number" l2).bind (fun l3 => captureDigits (skipWs l3)) with
    | some n => some n
    | none => captureDigits l2

/-- `pg\.?\s*(\d+)` at the current position. -/
def pagePat2 (l : List Char) : Option Nat :=
  (matchLit "pg" l).bind fun l1 => captureDigits (skipWs (dropOptDot l1))

/-- `p\.?\s*(\d+)` at the current position. -/
def pagePat3 (l : List Char) : Option Nat :=
  (matchLit "p" l).bind fun l1 => captureDigits (skipWs (dropOptDot l1))

/-- `on\s+(\d+)(?:st|nd|rd|th)?\s+page` at the current position. -/
def pagePat4 (l : List Char) : Option Nat :=
  (matchLit "on" l).bind fun l1 =>
    (wsPlus l1).bind fun l2 =>
      (captureDigitsRest l2).bind fun nr =>
        (wsPlus (dropOrdinal nr.2)).bind fun l3 =>
          (matchLit "page" l3).map fun _ => nr.1

/-- `(\d+)(?:st|nd|rd|th)?\s+page` at the current position. -/
def pagePat5 (l : List Char) : Option Nat :=
  (captureDigitsRest l).bind fun nr =>
    (wsPlus (dropOrdinal nr.2)).bind fun l3 =>
      (matchLit "page" l3).map fun _ => nr.1

/-- `from\s+page\s*(\d+)` at the current position. -/
def pagePat6 (l : List Char) : Option Nat :=
  (matchLit "from" l).bind fun l1 =>
    (wsPlus l1).bind fun l2 =>
      (matchLit "page" l2).bind fun l3 => captureDigits (skipWs l3)

/-- `in\s+page\s*(\d+)` at the current position. -/
def pagePat7 (l : List Char) : Option Nat :=
  (matchLit "in" l).bind fun l1 =>
    (wsPlus l1).bind fun l2 =>
      (matchLit "page" l2).bind fun l3 => captureDigits (skipWs l3)

/-- `re.search`: try the pattern at each position, leftmost match wins. -/
def searchPat (p : List Char → Option Nat) : List Char → Option Nat
  | [] => p []
  | c :: t =>
      match p (c :: t) with
      | some n => some n
      | none => searchPat p t

def pagePatterns : List (List Char → Option Nat) :=
  [pagePat1, pagePat2, pagePat3, pagePat4, pagePat5, pagePat6, pagePat7]

/-- `_extract_page_number`: ordered patterns over the lowered question,
first matching pattern wins. -/
def extract_page_number (question : String) : Option Nat :=
  pagePatterns.findSome? (fun p => searchPat p (pyLower question).data)

/-- `_is_page_question`. -/
def is_page_question (question : String) : Bool :=
  (extract_page_number question).isSome

/-! ## External-call outcomes

Each outcome type records either the value an external interface returned or
the exception it raised. -/

/-- Outcome of a call to an external interface returning `α`. -/
inductive ExtCall (α : Type) where
  | ok (val : α)
  | exn (msg : String)

/-- Outcome of one `grader_chain.invoke` call (the raw LLM string, or a raised
exception). -/
inductive GraderOutcome where
  | ok (raw : String)
  | exn (msg : String)

/-! ## Workflow nodes (agent.py `_build_graph`) -/

/-- `check_memory_question_node` (agent.py lines 435-457). -/
def check_memory_question_node (s : AgentState) : AgentState :=
  let is_memory_q := is_memory_question s.question
  let is_page_q := is_page_question s.question
  let page_num := if is_page_q then extract_page_number s.question else none
  { s with is_memory_question := is_memory_q
           is_page_question := is_page_q
           page_number := page_num
           reasoning_steps := s.reasoning_steps ++ ["Checking question type..."] }

/-- The conditional edge `route_by_question_type` (agent.py lines 1030-1035). -/
def route_by_question_type (s : AgentState) : String :=
  if s.is_memory_question then "memory_answer"
  else if s.is_page_question then "page_retrieve"
  else "tool_detection"

/-- `retrieve_node` (agent.py lines 636-674): on success replaces
`documents`/`document_sources`/`retrieval_results` from the hybrid-search
records and keeps `retries`; on a retriever exception returns the three lists
empty and increments `retries`. -/
def retrieve_node (outcome : ExtCall (List RetrievalResult)) (s : AgentState) : AgentState :=
  match outcome with
  | .ok results =>
      let docs := results.map (fun r => r.content)
      let doc_sources := results.map (fun r => r.source ++ " (" ++ r.rtype ++ ")")
      { s with documents := docs
               document_sources := doc_sources
               retrieval_results := results
               retries := s.retries
               reasoning_steps := s.reasoning_steps ++ ["Searching...", "Found documents"] }
  | .exn _ =>
      { s with documents := []
               document_sources := []
               retrieval_results := []
               retries := s.retries + 1
               reasoning_steps := s.reasoning_steps ++ ["Searching...", "Retrieval error"] }

/-- Python `parsed_res.get("score") == "yes"`: true exactly when the value is
the string `"yes"`. -/
def isYesVal : Option PyJson → Bool
  | some (.jstr s) => s == "yes"
  | _ => false

/-- The per-passage decision of `grade_node`: an exception from the grader
chain (or from `.get` on a non-dict parse) keeps the passage; otherwise the
passage is kept exactly when the parsed score equals `"yes"`. -/
def gradeKeep (jsonDec astDec : String → Option PyJson) (outcome : GraderOutcome) : Bool :=
  match outcome with
  | .exn _ => true
  | .ok raw =>
      match pyGet (parse_json_safe jsonDec astDec raw) "score" with
      | .error _ => true
      | .ok v => isYesVal v

/-- The `for i, doc in enumerate(state["documents"])` loop of `grade_node`:
kept passages are appended in order, and the parallel `retrieval_results`
entry is appended when `i < len(retrieval_results)`. -/
def gradeLoop (keep : Nat → Bool) :
    Nat → List String → List RetrievalResult → List String × List RetrievalResult
  | _, [], _ => ([], [])
  | i, d :: ds, results =>
      let rest := gradeLoop keep (i + 1) ds results
      if keep i then
        (d :: rest.1,
         match results[i]? with
         | some r => r :: rest.2
         | none => rest.2)
      else rest

/-- `grade_node` (agent.py lines 676-724).  Note: the update sets `documents`,
`retrieval_results` and `retries` but never `document_sources`. -/
def grade_node (jsonDec astDec : String → Option PyJson) (grader : Nat → GraderOutcome)
    (s : AgentState) : AgentState :=
  if s.documents.isEmpty then
    { s with documents := []
             retrieval_results := []
             retries := s.retries + 1
             reasoning_steps := s.reasoning_steps ++ ["Grading...", "No documents to grade"] }
  else
    let kept := gradeLoop (fun i => gradeKeep jsonDec astDec (grader i)) 0
                  s.documents s.retrieval_results
    let new_retries := if kept.1.isEmpty then s.retries + 1 else s.retries
    { s with documents := kept.1
             retrieval_results := kept.2
             retries := new_retries
             reasoning_steps := s.reasoning_steps ++ ["Grading...", "Documents graded"] }

/-- The conditional edge `check_relevance` (agent.py lines 1050-1055):
`"generate"` when documents survived grading, else `"fail"` when
`retries > 2`, else `"rewrite"`. -/
def check_relevance (s : AgentState) : String :=
  if s.documents.isEmpty = false then "generate"
  else if s.retries > 2 then "fail"
  else "rewrite"

/-- `rewrite_node` (agent.py lines 726-741): on success the new question is
the rewriter output stripped and with double quotes removed; on an exception
the original question is reused. -/
def rewrite_node (outcome : ExtCall String) (s : AgentState) : AgentState :=
  let new_q :=
    match outcome with
    | .ok raw => pyReplace (pyStrip raw) "\"" ""
    | .exn _ => s.question
  { s with question := new_q
           reasoning_steps := s.reasoning_steps ++ ["Rewriting query..."] }

/-- The fixed fallback message of `graceful_fail_node` (agent.py line 854). -/
def fallbackMessage : String :=
  "The requested information is not available in the current documents. Please provide more specific details or try a different query."

/-- `graceful_fail_node` (agent.py lines 849-858). -/
def graceful_fail_node (s : AgentState) : AgentState :=
  { s with generation := fallbackMessage
           should_store_memory := false
           is_grounded := false
           reasoning_steps := s.reasoning_steps ++ ["Max retries reached"] }

/-- `memory_storage_node` (agent.py lines 979-1002).  The call to
`memory_manager.add_exchange` is NOT wrapped in try/except, so a writer
exception escapes the node; the codomain is therefore `Except`. -/
def memory_storage_node (writer : ExtCall Unit) (s : AgentState) : Except String AgentState :=
  if s.should_store_memory then
    match writer with
    | .ok _ =>
        .ok { s with reasoning_steps := s.reasoning_steps ++ ["Storing to memory...", "Memory stored"] }
    | .exn msg => .error msg
  else
    .ok { s with reasoning_steps := s.reasoning_steps ++ ["Storing to memory...", "Skipped (not storing)"] }

/-- Truthiness of a Python value, as used in `if tool_info.get("tool") and ...`. -/
def pyTruthy : Option PyJson → Bool
  | none => false
  | some (.jstr s) => s != ""
  | some (.jdict fs) => !fs.isEmpty
  | some (.jlist l) => !l.isEmpty

/-- Python `tool_info["tool"] != "none"` on the already-truthy value. -/
def isNoneStr : Option PyJson → Bool
  | some (.jstr s) => s == "none"
  | _ => false

/-- `tool_detection_node` (agent.py lines 600-634): the whole chain call and
parse sit inside try/except, and any failure (including a non-dict parse
making `.get` raise) falls through to the `tool_calls: []` return. -/
def tool_detection_node (jsonDec astDec : String → Option PyJson)
    (chain : ExtCall String) (s : AgentState) : AgentState :=
  match chain with
  | .exn _ =>
      { s with tool_calls := []
               reasoning_steps := s.reasoning_steps ++ ["Detecting tools...", "No specific tool needed"] }
  | .ok raw =>
      let tool_info := parse_json_safe jsonDec astDec raw
      match pyGet tool_info "tool" with
      | .error _ =>
          { s with tool_calls := []
                   reasoning_steps := s.reasoning_steps ++ ["Detecting tools...", "No specific tool needed"] }
      | .ok v =>
          if pyTruthy v && !isNoneStr v then
            { s with tool_calls := [tool_info]
                     reasoning_steps := s.reasoning_steps ++ ["Detecting tools...", "Detected tool"] }
          else
            { s with tool_calls := []
                     reasoning_steps := s.reasoning_steps ++ ["Detecting tools...", "No specific tool needed"] }

/-- `page_retrieve_node` (agent.py lines 459-513): `engine.get_page_content`,
then the `engine.search_by_page` fallback; any exception or two empty result
lists produce the empty update. -/
def page_retrieve_node (pageCall searchCall : ExtCall (List RetrievalResult))
    (s : AgentState) : AgentState :=
  let page_num := s.page_number.getD 1
  match pageCall with
  | .exn _ =>
      { s with documents := []
               document_sources := []
               retrieval_results := []
               reasoning_steps := s.reasoning_steps ++ ["Retrieving page...", "Page retrieval error"] }
  | .ok page_results =>
      if page_results.isEmpty = false then
        { s with documents := page_results.map (fun r => r.content)
                 document_sources :=
                   page_results.map (fun r => r.source ++ " (Page " ++ toString page_num ++ ")")
                 retrieval_results := page_results
                 reasoning_steps := s.reasoning_steps ++ ["Retrieving page...", "Found chunks"] }
      else
        match searchCall with
        | .exn _ =>
            { s with documents := []
                     document_sources := []
                     retrieval_results := []
                     reasoning_steps := s.reasoning_steps ++ ["Retrieving page...", "Page retrieval error"] }
        | .ok search_results =>
            if search_results.isEmpty = false then
              { s with documents := search_results.map (fun r => r.content)
                       document_sources := search_results.map (fun r => r.source)
                       retrieval_results := search_results
                       reasoning_steps := s.reasoning_steps ++ ["Retrieving page...", "Found results"] }
            else
              { s with documents := []
                       document_sources := []
                       retrieval_results := []
                       reasoning_steps := s.reasoning_steps ++ ["Retrieving page...", "No content found"] }

/-- The `page_content` string `page_answer_node` assembles for the LLM prompt. -/
def pageContentOf (s : AgentState) : String :=
  if s.documents.isEmpty = false then pyJoin "\n\n" s.documents
  else "No content found for page " ++ toString (s.page_number.getD 1) ++ "."

/-- `page_answer_node` (agent.py lines 515-551).  The generator oracle is
keyed by the assembled `page_content` (the other prompt inputs are fixed for
the run).  On success the node marks the answer grounded by definition; only
the exception branch produces the fixed "couldn't find content" message with
`is_grounded=false`. -/
def page_answer_node (gen : String → ExtCall String) (s : AgentState) : AgentState :=
  let page_num := s.page_number.getD 1
  match gen (pageContentOf s) with
  | .ok g =>
      { s with generation := g
               is_grounded := true
               should_store_memory := true
               reasoning_steps := s.reasoning_steps ++ ["Generating page answer...", "Generated"] }
  | .exn _ =>
      { s with generation := "I couldn't find content for page " ++ toString page_num ++
                 ". Please check the page number and try again."
               is_grounded := false
               should_store_memory := false
               reasoning_steps := s.reasoning_steps ++ ["Generating page answer...", "Generation error"] }

/-! ## The Retrieve/Grade/Rewrite loop (agent.py graph edges, lines 1047-1059)

`tool_detection → retrieve → grade → check_relevance → {generate | fail |
rewrite → retrieve}`.  One `CycleOracle` records the outcomes of the external
calls of one Retrieve→Grade(→Rewrite) cycle; the runner is fuel-indexed (the
`"no_fuel"` marker flags fuel exhaustion, and the termination theorem shows
fuel 4 never exhausts). -/

/-- Outcomes of the external calls made during one cycle of the loop. -/
structure CycleOracle where
  retrieveOutcome : ExtCall (List RetrievalResult)
  graderOutcome : Nat → GraderOutcome
  rewriteOutcome : ExtCall String

/-- Run the Retrieve→Grade→(Rewrite→…) loop.  Returns the state at the loop's
exit, the node the conditional edge routed to (`"generate"` or, after running
`graceful_fail_node`, `"fail"`), and the number of Retrieve→Grade cycles
executed. -/
def loopRun (jsonDec astDec : String → Option PyJson) (orc : Nat → CycleOracle) :
    Nat → AgentState → Nat → AgentState × String × Nat
  | 0, s, count => (s, "no_fuel", count)
  | Nat.succ fuel, s, count =>
      let s1 := retrieve_node (orc count).retrieveOutcome s
      let s2 := grade_node jsonDec astDec (orc count).graderOutcome s1
      if check_relevance s2 = "generate" then (s2, "generate", count + 1)
      else if check_relevance s2 = "fail" then (graceful_fail_node s2, "fail", count + 1)
      else loopRun jsonDec astDec orc fuel (rewrite_node (orc count).rewriteOutcome s2) (count + 1)

/-! ## Memory manager (memory_manager.py)

Short-term memory is embedded along its in-memory fallback path
(`use_redis = false`): `_memory_store` is a map from the session key to a
`deque(maxlen=10)` held oldest-first.  The Redis path has the same observable
behaviour (append, keep the last `max_exchanges`).  Timestamps are wall-clock
and not modelled. -/

/-- One stored Q&A exchange (`metadata = {"domain": d}`). -/
structure Exchange where
  question : String
  answer : String
  domain : String
deriving Repr, DecidableEq

/-- `_memory_store`: key → exchanges, oldest first. -/
abbrev MemStore := String → List Exchange

def emptyStore : MemStore := fun _ => []

/-- `ShortTermMemory._get_key`. -/
def stmKey (session_id user_id : String) : String :=
  "byteme:session:" ++ user_id ++ ":" ++ session_id

/-- `deque(maxlen=10).append`: append and keep the last 10. -/
def pushBounded (maxLen : Nat) (l : List Exchange) (e : Exchange) : List Exchange :=
  let l' := l ++ [e]
  l'.drop (l'.length - maxLen)

/-- `ShortTermMemory.add_exchange` (memory_manager.py lines 77-113),
in-memory branch. -/
def stm_add_exchange (store : MemStore) (session_id user_id q a domain : String) : MemStore :=
  fun k =>
    if k = stmKey session_id user_id then
      pushBounded 10 (store (stmKey session_id user_id)) ⟨q, a, domain⟩
    else store k

/-- `ShortTermMemory.get_history` (memory_manager.py lines 115-135): the last
`n` exchanges (`list(deque)[-n:]`, for the `n ≥ 1` values used by the code). -/
def stm_get_history (store : MemStore) (session_id user_id : String) (n : Nat) : List Exchange :=
  let l := store (stmKey session_id user_id)
  l.drop (l.length - n)

/-- The 100-character question truncation in `format_for_prompt`. -/
def truncQ (q : String) : String :=
  if pyLen q > 100 then pyTake q 100 ++ "..." else q

/-- The 150-character answer truncation in `format_for_prompt`. -/
def truncA (a : String) : String :=
  if pyLen a > 150 then pyTake a 150 ++ "..." else a

/-- One formatted line `f"[{i}] Q: {q}\n    A: {a}"`. -/
def entryStr (i : Nat) (e : Exchange) : String :=
  "[" ++ toString i ++ "] Q: " ++ truncQ e.question ++ "\n    A: " ++ truncA e.answer

/-- The `enumerate(history, 1)` loop of `format_for_prompt`. -/
def formatEntries : Nat → List Exchange → List String
  | _, [] => []
  | i, e :: es => entryStr i e :: formatEntries (i + 1) es

/-- `ShortTermMemory.format_for_prompt` (memory_manager.py lines 137-154). -/
def stm_format_for_prompt (store : MemStore) (session_id user_id : String) (n : Nat) : String :=
  let history := stm_get_history store session_id user_id n
  if history.isEmpty then "No previous conversation."
  else pyJoin "\n" (formatEntries 1 history)

/-- `MemoryManager.add_exchange` (memory_manager.py lines 477-520): always
appends to short-term; the optional long-term write goes to an external
backend (PostgreSQL/ChromaDB) and does not affect short-term state. -/
def mm_add_exchange (store : MemStore) (session_id user_id q a domain : String)
    (_store_long_term : Bool) : MemStore :=
  stm_add_exchange store session_id user_id q a domain

/-- The `{short_term, long_term}` record returned by `get_context`. -/
structure MemContext where
  short_term : String
  long_term : String

/-- `MemoryManager.get_context` (memory_manager.py lines 522-559):
`short_term` is `format_for_prompt(n=3)`; `long_term` comes from the external
long-term backend, modelled as an oracle string. -/
def mm_get_context (store : MemStore) (longTermOracle : String)
    (session_id user_id _query : String) : MemContext :=
  { short_term := stm_format_for_prompt store session_id user_id 3
    long_term := longTermOracle }

/-! ## General lemmas about the embedded nodes -/

/-- `grade_node` leaves an empty relevant set exactly by incrementing
`retries` (both the no-documents branch and the all-rejected branch). -/
theorem grade_node_retries_of_empty (jsonDec astDec : String → Option PyJson)
    (grader : Nat → GraderOutcome) (s : AgentState)
    (h : (grade_node jsonDec astDec grader s).documents = []) :
    (grade_node jsonDec astDec grader s).retries = s.retries + 1 := by
  by_cases hd : s.documents.isEmpty
  · simp [grade_node, hd]
  · simp only [grade_node, hd, Bool.false_eq_true, if_false] at h ⊢
    simp [h]

/-- `grade_node` never decreases `retries`. -/
theorem grade_node_retries_le (jsonDec astDec : String → Option PyJson)
    (grader : Nat → GraderOutcome) (s : AgentState) :
    s.retries ≤ (grade_node jsonDec astDec grader s).retries := by
  by_cases hd : s.documents.isEmpty
  · simp [grade_node, hd]
  · simp only [grade_node, hd, Bool.false_eq_true, if_false]
    split <;> simp

/-- `retrieve_node` never decreases `retries`. -/
theorem retrieve_node_retries_le (outcome : ExtCall (List RetrievalResult)) (s : AgentState) :
    s.retries ≤ (retrieve_node outcome s).retries := by
  cases outcome <;> simp [retrieve_node]

/-- `rewrite_node` does not change `retries` or `documents`. -/
theorem rewrite_node_preserves (outcome : ExtCall String) (s : AgentState) :
    (rewrite_node outcome s).retries = s.retries ∧
    (rewrite_node outcome s).documents = s.documents := by
  simp [rewrite_node]

/-- `check_relevance` on a state with no surviving documents. -/
theorem check_relevance_empty (s : AgentState) (h : s.documents = []) :
    check_relevance s = if s.retries > 2 then "fail" else "rewrite" := by
  simp [check_relevance, h]

/-! ## Shared concrete fixtures for witnesses and counterexamples -/

/-- Decoder oracle for concrete tests: models `json.loads` /
`ast.literal_eval` raising, which is what both do on every non-JSON,
non-literal test string used below. -/
def jdecNone : String → Option PyJson := fun _ => none

/-- Grader oracle whose raw output `"irrelevant"` falls through both decoders
to the keyword heuristic and parses as `{"score": "no"}`. -/
def graderNo : Nat → GraderOutcome := fun _ => GraderOutcome.ok "irrelevant"

/-! ## C1 — Grade/rewrite/fail threshold -/

/-- A state about to run its third failing Grade: one retrieved document the
grader rejects, `retries = 2` going in. -/
def c1State : AgentState :=
  { mkInitialState "q" "IT Service Desk" "u" "sess" with
      documents := ["doc a"]
      document_sources := ["fileA (text)"]
      retrieval_results := [⟨"doc a", "fileA", "text"⟩]
      retries := 2 }

/-- C1 counterexample: after a Grade that empties the document set, the
incremented `retries` is `3 ≤ MAX_RETRIES = 3`, yet `check_relevance` routes
to `"fail"`, not `"rewrite"` as the claim requires — the code compares
`retries > 2`, not `retries > 3`. -/
theorem C1_counterexample :
    (grade_node jdecNone jdecNone graderNo c1State).documents = [] ∧
    (grade_node jdecNone jdecNone graderNo c1State).retries = 3 ∧
    check_relevance (grade_node jdecNone jdecNone graderNo c1State) = "fail" := by
  decide

/-- C1 (amended): when a Grade step leaves the relevant document set empty,
the engine increments `retries` by one and then transitions to Fail exactly
when the incremented `retries > 2`; for every state with empty documents and
`retries ≤ 2` it transitions to Rewrite instead. -/
theorem C1_amended_theorem (jsonDec astDec : String → Option PyJson)
    (grader : Nat → GraderOutcome) (s : AgentState)
    (h : (grade_node jsonDec astDec grader s).documents = []) :
    (grade_node jsonDec astDec grader s).retries = s.retries + 1 ∧
    (check_relevance (grade_node jsonDec astDec grader s) = "fail" ↔
      (grade_node jsonDec astDec grader s).retries > 2) ∧
    (check_relevance (grade_node jsonDec astDec grader s) = "rewrite" ↔
      (grade_node jsonDec astDec grader s).retries ≤ 2) := by
  refine ⟨grade_node_retries_of_empty jsonDec astDec grader s h, ?_, ?_⟩ <;>
    rw [check_relevance_empty _ h] <;> split <;> simp_all

/-- Witness for C1 (amended) at the concrete fixture. -/
theorem C1_amended_theorem_witness :
    (grade_node jdecNone jdecNone graderNo c1State).documents = [] ∧
    ((grade_node jdecNone jdecNone graderNo c1State).retries = c1State.retries + 1 ∧
     (check_relevance (grade_node jdecNone jdecNone graderNo c1State) = "fail" ↔
       (grade_node jdecNone jdecNone graderNo c1State).retries > 2) ∧
     (check_relevance (grade_node jdecNone jdecNone graderNo c1State) = "rewrite" ↔
       (grade_node jdecNone jdecNone graderNo c1State).retries ≤ 2)) :=
  ⟨by decide, C1_amended_theorem jdecNone jdecNone graderNo c1State (by decide)⟩

/-! ## C10 — retriever exception consumes retry budget twice per cycle -/

/-- C10: when the retriever raises, `retrieve_node` returns the three lists
empty with `retries + 1`; the following `grade_node`, seeing no documents,
increments again to `retries + 2`; `check_relevance` then routes the pipeline
onwards (`"rewrite"`, or `"fail"` once the incremented counter exceeds 2)
rather than aborting. -/
theorem C10_theorem (jsonDec astDec : String → Option PyJson)
    (grader : Nat → GraderOutcome) (msg : String) (s : AgentState) :
    (retrieve_node (ExtCall.exn msg) s).documents = [] ∧
    (retrieve_node (ExtCall.exn msg) s).document_sources = [] ∧
    (retrieve_node (ExtCall.exn msg) s).retrieval_results = [] ∧
    (retrieve_node (ExtCall.exn msg) s).retries = s.retries + 1 ∧
    (grade_node jsonDec astDec grader (retrieve_node (ExtCall.exn msg) s)).documents = [] ∧
    (grade_node jsonDec astDec grader (retrieve_node (ExtCall.exn msg) s)).retries = s.retries + 2 ∧
    check_relevance (grade_node jsonDec astDec grader (retrieve_node (ExtCall.exn msg) s)) =
      (if s.retries + 2 > 2 then "fail" else "rewrite") := by
  simp [retrieve_node, grade_node, check_relevance]

/-! ## C3 — documents / documentSources alignment broken by grade_node -/

/-- A freshly retrieved state: two documents with aligned sources and
retrieval records. -/
def c3State : AgentState :=
  { mkInitialState "q" "HR Operations" "u" "sess" with
      documents := ["alpha", "beta"]
      document_sources := ["srcA (text)", "srcB (text)"]
      retrieval_results := [⟨"alpha", "srcA", "text"⟩, ⟨"beta", "srcB", "text"⟩] }

/-- Grader oracle: rejects passage 0 (`"irrelevant"` parses to score `"no"`),
accepts passage 1 (`"yes"` parses to score `"yes"` via the keyword
heuristic). -/
def graderC3 : Nat → GraderOutcome :=
  fun i => if i = 1 then GraderOutcome.ok "yes" else GraderOutcome.ok "irrelevant"

/-- C3: `grade_node` filters `documents` (and keeps `retrieval_results`
aligned) but returns no `document_sources` update, so the merged state keeps
the stale two-element source list next to the one surviving document: the
claimed index-alignment invariant is broken between the Grade node and its
successor. -/
theorem C3_bug_theorem :
    c3State.documents.length = c3State.document_sources.length ∧
    (grade_node jdecNone jdecNone graderC3 c3State).documents = ["beta"] ∧
    (grade_node jdecNone jdecNone graderC3 c3State).retrieval_results = [⟨"beta", "srcB", "text"⟩] ∧
    (grade_node jdecNone jdecNone graderC3 c3State).document_sources = ["srcA (text)", "srcB (text)"] ∧
    (grade_node jdecNone jdecNone graderC3 c3State).documents.length ≠
      (grade_node jdecNone jdecNone graderC3 c3State).document_sources.length := by
  decide

/-! ## C4 — memory_storage_node lets writer exceptions escape -/

/-- A state reaching MemoryStorage after a successful generation
(`should_store_memory = true`). -/
def c4State : AgentState :=
  { mkInitialState "q" "IT Service Desk" "u" "sess" with
      generation := "an answer"
      is_grounded := true
      should_store_memory := true }

/-- C4: `memory_storage_node` calls `memory_manager.add_exchange` outside any
try/except, so when the memory writer raises with `should_store_memory = true`
the exception escapes the node boundary instead of degrading to a partial
update — contradicting the totality claim (every other node wraps its
external calls). -/
theorem C4_bug_theorem :
    c4State.should_store_memory = true ∧
    memory_storage_node (ExtCall.exn "memory backend failure") c4State =
      Except.error "memory backend failure" :=
  ⟨rfl, rfl⟩

/-! ## C5 — parse_json_safe fallback default -/

/-- C5 counterexample: on a string both decoders reject and with no
affirmative keyword, `parse_json_safe` returns `{"score": "no"}` — it has no
`"tool"` key at all, so the claimed `{"tool": "none"}` default is wrong. -/
theorem C5_counterexample :
    parse_json_safe jdecNone jdecNone "Totally unparseable" =
      PyJson.jdict [("score", PyJson.jstr "no")] ∧
    pyGet (parse_json_safe jdecNone jdecNone "Totally unparseable") "tool" = Except.ok none ∧
    parse_json_safe jdecNone jdecNone "Totally unparseable" ≠
      PyJson.jdict [("tool", PyJson.jstr "none")] := by
  refine ⟨rfl, rfl, ?_⟩
  intro h
  rw [show parse_json_safe jdecNone jdecNone "Totally unparseable" =
        PyJson.jdict [("score", PyJson.jstr "no")] from rfl] at h
  injection h with hfields
  injection hfields with hhead _
  injection hhead with hk _
  exact absurd hk (by decide)

/-- C5 (amended): the parser is total and three-tiered — strict decode wins
if it succeeds, else the lenient decode, else the keyword heuristic returning
`{"score": "yes"}` when `"yes"` occurs in the lowered cleaned text and the
safe default `{"score": "no"}` (not `{"tool": "none"}`) otherwise. -/
theorem C5_amended_theorem
    (jd1 ad1 jd2 ad2 jd3 ad3 : String → Option PyJson) (t1 t2 t3 : String) (v w : PyJson)
    (h1 : jd1 (cleanText t1) = some v)
    (h2 : jd2 (cleanText t2) = none) (h2' : ad2 (cleanText t2) = some w)
    (h3 : jd3 (cleanText t3) = none) (h3' : ad3 (cleanText t3) = none) :
    parse_json_safe jd1 ad1 t1 = v ∧
    parse_json_safe jd2 ad2 t2 = w ∧
    parse_json_safe jd3 ad3 t3 =
      (if pyContains (pyLower (cleanText t3)) "yes" then
        PyJson.jdict [("score", PyJson.jstr "yes")]
       else PyJson.jdict [("score", PyJson.jstr "no")]) := by
  refine ⟨?_, ?_, ?_⟩
  · simp [parse_json_safe, h1]
  · simp [parse_json_safe, h2, h2']
  · simp [parse_json_safe, h3, h3']

/-- Decoder oracle for the strict tier: models `json.loads` succeeding on the
strict-JSON test string below. -/
def jdecTool : String → Option PyJson :=
  fun _ => some (PyJson.jdict [("tool", PyJson.jstr "none")])

/-- Decoder oracle for the lenient tier: models `ast.literal_eval` succeeding
on the single-quoted test string below. -/
def adecScoreYes : String → Option PyJson :=
  fun _ => some (PyJson.jdict [("score", PyJson.jstr "yes")])

/-- Witness for C5 (amended): one concrete input per tier. -/
theorem C5_amended_theorem_witness :
    jdecTool (cleanText "\x7b\"tool\": \"none\"\x7d") =
      some (PyJson.jdict [("tool", PyJson.jstr "none")]) ∧
    jdecNone (cleanText "'score': 'yes'") = none ∧
    adecScoreYes (cleanText "'score': 'yes'") =
      some (PyJson.jdict [("score", PyJson.jstr "yes")]) ∧
    jdecNone (cleanText "no structure here at all") = none ∧
    (parse_json_safe jdecTool jdecNone "\x7b\"tool\": \"none\"\x7d" =
       PyJson.jdict [("tool", PyJson.jstr "none")] ∧
     parse_json_safe jdecNone adecScoreYes "'score': 'yes'" =
       PyJson.jdict [("score", PyJson.jstr "yes")] ∧
     parse_json_safe jdecNone jdecNone "no structure here at all" =
       (if pyContains (pyLower (cleanText "no structure here at all")) "yes" then
         PyJson.jdict [("score", PyJson.jstr "yes")]
        else PyJson.jdict [("score", PyJson.jstr "no")])) :=
  ⟨rfl, rfl, rfl, rfl,
   C5_amended_theorem jdecTool jdecNone jdecNone adecScoreYes jdecNone jdecNone
     "\x7b\"tool\": \"none\"\x7d" "'score': 'yes'" "no structure here at all"
     (PyJson.jdict [("tool", PyJson.jstr "none")])
     (PyJson.jdict [("score", PyJson.jstr "yes")])
     rfl rfl rfl rfl rfl⟩

/-! ## C6 — fail-open grading -/

/-- The kept documents of `gradeLoop` are a sublist of the input documents:
surviving passages keep their original relative order. -/
theorem gradeLoop_sublist (keep : Nat → Bool) :
    ∀ (docs : List String) (i : Nat) (results : List RetrievalResult),
      (gradeLoop keep i docs results).1.Sublist docs := by
  intro docs
  induction docs with
  | nil => intro i results; simp [gradeLoop]
  | cons d ds ih =>
      intro i results
      by_cases hk : keep i
      · simp only [gradeLoop, hk, if_true]
        exact List.Sublist.cons₂ d (ih (i + 1) results)
      · simp only [gradeLoop, hk, if_false]
        exact List.Sublist.cons d (ih (i + 1) results)

/-- A kept passage appears in the zipped output of `gradeLoop` paired with
its original `retrieval_results` record. -/
theorem gradeLoop_keep_mem (keep : Nat → Bool) :
    ∀ (docs : List String) (results : List RetrievalResult) (i0 j : Nat)
      (d : String) (r : RetrievalResult),
      docs[j]? = some d → results[i0 + j]? = some r → keep (i0 + j) = true →
      (d, r) ∈ ((gradeLoop keep i0 docs results).1.zip (gradeLoop keep i0 docs results).2) := by
  intro docs
  induction docs with
  | nil => intro results i0 j d r hd _ _; simp at hd
  | cons d0 ds ih =>
      intro results i0 j d r hd hr hk
      cases j with
      | zero =>
          have hd0 : d = d0 := by simpa using hd.symm
          subst hd0
          have hk0 : keep i0 = true := by simpa using hk
          have hr0 : results[i0]? = some r := by simpa using hr
          simp only [gradeLoop, hk0, if_true, hr0, List.zip_cons_cons]
          exact List.mem_cons_self _ _
      | succ j' =>
          have hd' : ds[j']? = some d := by simpa using hd
          have hr' : results[(i0 + 1) + j']? = some r := by
            have : i0 + (j' + 1) = (i0 + 1) + j' := by omega
            rwa [this] at hr
          have hk' : keep ((i0 + 1) + j') = true := by
            have : i0 + (j' + 1) = (i0 + 1) + j' := by omega
            rwa [this] at hk
          have ihm := ih results (i0 + 1) j' d r hd' hr' hk'
          by_cases hk0 : keep i0
          · have hlt : i0 < results.length := by
              have := (List.getElem?_eq_some.mp hr).1
              omega
            have hr0 : results[i0]? = some (results.get ⟨i0, hlt⟩) :=
              List.getElem?_eq_getElem hlt
            simp only [gradeLoop, hk0, if_true, hr0, List.zip_cons_cons]
            exact List.mem_cons_of_mem _ ihm
          · simpa only [gradeLoop, hk0, if_false] using ihm

/-- C6: if the grader raises on passage `i` of a five-candidate batch, that
passage survives grading, paired with its original retrieval record, and the
surviving set preserves the original order (it is a sublist of the input). -/
theorem C6_theorem (jsonDec astDec : String → Option PyJson) (grader : Nat → GraderOutcome)
    (s : AgentState) (i : Nat) (d : String) (r : RetrievalResult) (msg : String)
    (hlen : s.documents.length = 5)
    (hd : s.documents[i]? = some d)
    (hr : s.retrieval_results[i]? = some r)
    (hexn : grader i = GraderOutcome.exn msg) :
    (d, r) ∈ ((grade_node jsonDec astDec grader s).documents.zip
              (grade_node jsonDec astDec grader s).retrieval_results) ∧
    (grade_node jsonDec astDec grader s).documents.Sublist s.documents := by
  have hne : s.documents.isEmpty = false := by
    cases hdoc : s.documents with
    | nil => rw [hdoc] at hlen; simp at hlen
    | cons x xs => simp [hdoc]
  have hkeep : gradeKeep jsonDec astDec (grader i) = true := by
    rw [hexn]; rfl
  constructor
  · simp only [grade_node, hne, Bool.false_eq_true, if_false]
    exact gradeLoop_keep_mem _ s.documents s.retrieval_results 0 i d r
      (by simpa using hd) (by simpa using hr) (by simpa using hkeep)
  · simp only [grade_node, hne, Bool.false_eq_true, if_false]
    exact gradeLoop_sublist _ s.documents 0 s.retrieval_results

/-- Five candidate passages with aligned retrieval records; the grader raises
on passage 2 and rejects the other four. -/
def c6State : AgentState :=
  { mkInitialState "q" "Developer Support" "u" "sess" with
      documents := ["d0", "d1", "d2", "d3", "d4"]
      document_sources := ["s0 (text)", "s1 (text)", "s2 (text)", "s3 (text)", "s4 (text)"]
      retrieval_results :=
        [⟨"d0", "s0", "text"⟩, ⟨"d1", "s1", "text"⟩, ⟨"d2", "s2", "text"⟩,
         ⟨"d3", "s3", "text"⟩, ⟨"d4", "s4", "text"⟩] }

/-- Grader oracle for the C6 witness: raises on passage 2, rejects the rest. -/
def graderC6 : Nat → GraderOutcome :=
  fun i => if i = 2 then GraderOutcome.exn "grader timeout" else GraderOutcome.ok "irrelevant"

/-- Witness for C6 at the concrete five-passage fixture. -/
theorem C6_theorem_witness :
    c6State.documents.length = 5 ∧
    c6State.documents[2]? = some "d2" ∧
    c6State.retrieval_results[2]? = some ⟨"d2", "s2", "text"⟩ ∧
    graderC6 2 = GraderOutcome.exn "grader timeout" ∧
    (("d2", (⟨"d2", "s2", "text"⟩ : RetrievalResult)) ∈
      ((grade_node jdecNone jdecNone graderC6 c6State).documents.zip
       (grade_node jdecNone jdecNone graderC6 c6State).retrieval_results) ∧
     (grade_node jdecNone jdecNone graderC6 c6State).documents.Sublist c6State.documents) :=
  ⟨rfl, rfl, rfl, rfl,
   C6_theorem jdecNone jdecNone graderC6 c6State 2 "d2" ⟨"d2", "s2", "text"⟩ "grader timeout"
     rfl rfl rfl rfl⟩

/-! ## C2 — loop termination and cycle bound -/

/-- One unfolding of `loopRun`. -/
theorem loopRun_succ (jsonDec astDec : String → Option PyJson) (orc : Nat → CycleOracle)
    (fuel : Nat) (s : AgentState) (count : Nat) :
    loopRun jsonDec astDec orc (fuel + 1) s count =
      (let s2 := grade_node jsonDec astDec (orc count).graderOutcome
                   (retrieve_node (orc count).retrieveOutcome s);
       if check_relevance s2 = "generate" then (s2, "generate", count + 1)
       else if check_relevance s2 = "fail" then (graceful_fail_node s2, "fail", count + 1)
       else loopRun jsonDec astDec orc fuel
              (rewrite_node (orc count).rewriteOutcome s2) (count + 1)) := rfl

/-- Fuel/cycle bound for the Retrieve→Grade→Rewrite loop: with more than
`3 - retries` units of fuel the loop never exhausts its fuel, and executes at
most `3 - retries + 1` further cycles — because every cycle that loops back
has incremented `retries` and may only continue while `retries ≤ 2`. -/
theorem loopRun_bound (jsonDec astDec : String → Option PyJson) (orc : Nat → CycleOracle) :
    ∀ (fuel : Nat) (s : AgentState) (count : Nat), 3 - s.retries < fuel →
      (loopRun jsonDec astDec orc fuel s count).2.1 ≠ "no_fuel" ∧
      (loopRun jsonDec astDec orc fuel s count).2.2 ≤ count + (3 - s.retries) + 1 := by
  intro fuel
  induction fuel with
  | zero => intro s count h; exact absurd h (Nat.not_lt_zero _)
  | succ fuel ih =>
      intro s count h
      simp only [loopRun_succ]
      set s2 := grade_node jsonDec astDec (orc count).graderOutcome
                  (retrieve_node (orc count).retrieveOutcome s) with hs2
      by_cases hg : check_relevance s2 = "generate"
      · rw [if_pos hg]
        exact ⟨by simp, by simp⟩
      · rw [if_neg hg]
        by_cases hf : check_relevance s2 = "fail"
        · rw [if_pos hf]
          exact ⟨by simp, by simp⟩
        · rw [if_neg hf]
          have hdocs : s2.documents = [] := by
            by_contra hne
            have hie : s2.documents.isEmpty = false := by
              cases hl : s2.documents with
              | nil => exact absurd hl hne
              | cons x xs => simp
            exact hg (by simp [check_relevance, hie])
          have hle2 : s2.retries ≤ 2 := by
            by_contra hgt
            exact hf (by rw [check_relevance_empty _ hdocs, if_pos (by omega)])
          have hinc : s2.retries = (retrieve_node (orc count).retrieveOutcome s).retries + 1 :=
            grade_node_retries_of_empty _ _ _ _ hdocs
          have hmono : s.retries ≤ (retrieve_node (orc count).retrieveOutcome s).retries :=
            retrieve_node_retries_le _ _
          have hrw := rewrite_node_preserves (orc count).rewriteOutcome s2
          have ihz := ih (rewrite_node (orc count).rewriteOutcome s2) (count + 1)
            (by rw [hrw.1]; omega)
          refine ⟨ihz.1, ?_⟩
          have hc := ihz.2
          rw [hrw.1] at hc
          omega

/-- C2: from any loop-entry state with `retries = 0` (every request enters the
loop with `retries = 0`), the Retrieve→Grade→Rewrite loop terminates within
fuel 4 and executes at most 4 Retrieve→Grade cycles, for every behaviour of
the external retriever, grader and rewriter; moreover any cycle that produces
an empty relevant set strictly increases `retries`. -/
theorem C2_theorem (jsonDec astDec : String → Option PyJson) (orc : Nat → CycleOracle)
    (s : AgentState) (ro : ExtCall (List RetrievalResult)) (gr : Nat → GraderOutcome)
    (t : AgentState)
    (h0 : s.retries = 0)
    (hempty : (grade_node jsonDec astDec gr (retrieve_node ro t)).documents = []) :
    (loopRun jsonDec astDec orc 4 s 0).2.1 ≠ "no_fuel" ∧
    (loopRun jsonDec astDec orc 4 s 0).2.2 ≤ 4 ∧
    t.retries < (grade_node jsonDec astDec gr (retrieve_node ro t)).retries := by
  have hb := loopRun_bound jsonDec astDec orc 4 s 0 (by omega)
  refine ⟨hb.1, ?_, ?_⟩
  · have := hb.2; omega
  · have h1 := grade_node_retries_of_empty jsonDec astDec gr (retrieve_node ro t) hempty
    have h2 := retrieve_node_retries_le ro t
    omega

/-- Cycle oracle for the C2 witness: the retriever is down on every cycle,
the grader rejects everything, the rewriter succeeds. -/
def c2Oracle : Nat → CycleOracle :=
  fun _ =>
    { retrieveOutcome := ExtCall.exn "retriever down"
      graderOutcome := graderNo
      rewriteOutcome := ExtCall.ok "rewritten query" }

/-- Witness for C2 at the concrete all-failing run. -/
theorem C2_theorem_witness :
    (mkInitialState "q" "IT Service Desk" "u" "sess").retries = 0 ∧
    (grade_node jdecNone jdecNone graderNo
      (retrieve_node (ExtCall.exn "retriever down")
        (mkInitialState "q" "IT Service Desk" "u" "sess"))).documents = [] ∧
    ((loopRun jdecNone jdecNone c2Oracle 4 (mkInitialState "q" "IT Service Desk" "u" "sess") 0).2.1
        ≠ "no_fuel" ∧
     (loopRun jdecNone jdecNone c2Oracle 4 (mkInitialState "q" "IT Service Desk" "u" "sess") 0).2.2
        ≤ 4 ∧
     (mkInitialState "q" "IT Service Desk" "u" "sess").retries <
       (grade_node jdecNone jdecNone graderNo
         (retrieve_node (ExtCall.exn "retriever down")
           (mkInitialState "q" "IT Service Desk" "u" "sess"))).retries) :=
  ⟨rfl, by decide,
   C2_theorem jdecNone jdecNone c2Oracle (mkInitialState "q" "IT Service Desk" "u" "sess")
     (ExtCall.exn "retriever down") graderNo (mkInitialState "q" "IT Service Desk" "u" "sess")
     rfl (by decide)⟩

/-! ## C7 — three empty grades reach the Fail terminal -/

/-- If the per-passage decision rejects everything, `gradeLoop` keeps
nothing. -/
theorem gradeLoop_all_false (keep : Nat → Bool) (h : ∀ i, keep i = false) :
    ∀ (docs : List String) (i : Nat) (results : List RetrievalResult),
      gradeLoop keep i docs results = ([], []) := by
  intro docs
  induction docs with
  | nil => intro i results; simp [gradeLoop]
  | cons d ds ih => intro i results; simp [gradeLoop, h i, ih]

/-- A Grade step whose grader rejects every passage returns zero relevant
documents and increments `retries`, whatever was retrieved. -/
theorem grade_node_allno (jsonDec astDec : String → Option PyJson)
    (grader : Nat → GraderOutcome) (s : AgentState)
    (h : ∀ i, gradeKeep jsonDec astDec (grader i) = false) :
    (grade_node jsonDec astDec grader s).documents = [] ∧
    (grade_node jsonDec astDec grader s).retries = s.retries + 1 := by
  by_cases hd : s.documents.isEmpty
  · simp [grade_node, hd]
  · have hloop := gradeLoop_all_false (fun i => gradeKeep jsonDec astDec (grader i))
      h s.documents 0 s.retrieval_results
    simp [grade_node, hd, hloop]

/-- When a cycle's Grade leaves documents empty with `retries ≤ 2`, the loop
recurses through Rewrite. -/
theorem loopRun_rewrite_step (jsonDec astDec : String → Option PyJson)
    (orc : Nat → CycleOracle) (fuel : Nat) (s : AgentState) (count : Nat)
    (hdocs : (grade_node jsonDec astDec (orc count).graderOutcome
                (retrieve_node (orc count).retrieveOutcome s)).documents = [])
    (hle : (grade_node jsonDec astDec (orc count).graderOutcome
              (retrieve_node (orc count).retrieveOutcome s)).retries ≤ 2) :
    loopRun jsonDec astDec orc (fuel + 1) s count =
      loopRun jsonDec astDec orc fuel
        (rewrite_node (orc count).rewriteOutcome
          (grade_node jsonDec astDec (orc count).graderOutcome
            (retrieve_node (orc count).retrieveOutcome s))) (count + 1) := by
  have hc : check_relevance (grade_node jsonDec astDec (orc count).graderOutcome
      (retrieve_node (orc count).retrieveOutcome s)) = "rewrite" := by
    rw [check_relevance_empty _ hdocs, if_neg (by omega)]
  rw [loopRun_succ]
  simp [hc]

/-- When a cycle's Grade leaves documents empty with `retries > 2`, the loop
exits through `graceful_fail_node`. -/
theorem loopRun_fail_step (jsonDec astDec : String → Option PyJson)
    (orc : Nat → CycleOracle) (fuel : Nat) (s : AgentState) (count : Nat)
    (hdocs : (grade_node jsonDec astDec (orc count).graderOutcome
                (retrieve_node (orc count).retrieveOutcome s)).documents = [])
    (hgt : (grade_node jsonDec astDec (orc count).graderOutcome
              (retrieve_node (orc count).retrieveOutcome s)).retries > 2) :
    loopRun jsonDec astDec orc (fuel + 1) s count =
      (graceful_fail_node
        (grade_node jsonDec astDec (orc count).graderOutcome
          (retrieve_node (orc count).retrieveOutcome s)), "fail", count + 1) := by
  have hc : check_relevance (grade_node jsonDec astDec (orc count).graderOutcome
      (retrieve_node (orc count).retrieveOutcome s)) = "fail" := by
    rw [check_relevance_empty _ hdocs, if_pos (by omega)]
  rw [loopRun_succ]
  simp [hc]

/-- C7: starting from the request's initial state, if the retriever returns
normally and three consecutive Grade steps each return zero relevant
documents (the grader rejects every passage), the engine transitions to the
Fail terminal after exactly 3 cycles, and the terminal state carries the
fixed fallback generation with `is_grounded = false` and
`should_store_memory = false`. -/
theorem C7_theorem (jsonDec astDec : String → Option PyJson) (orc : Nat → CycleOracle)
    (rss : Nat → List RetrievalResult) (q dom u sess : String)
    (hret : ∀ c, (orc c).retrieveOutcome = ExtCall.ok (rss c))
    (hno : ∀ c i, gradeKeep jsonDec astDec ((orc c).graderOutcome i) = false) :
    (loopRun jsonDec astDec orc 4 (mkInitialState q dom u sess) 0).2.1 = "fail" ∧
    (loopRun jsonDec astDec orc 4 (mkInitialState q dom u sess) 0).2.2 = 3 ∧
    (loopRun jsonDec astDec orc 4 (mkInitialState q dom u sess) 0).1.generation
      = fallbackMessage ∧
    (loopRun jsonDec astDec orc 4 (mkInitialState q dom u sess) 0).1.is_grounded = false ∧
    (loopRun jsonDec astDec orc 4 (mkInitialState q dom u sess) 0).1.should_store_memory
      = false := by
  have step : ∀ (c : Nat) (s : AgentState),
      (grade_node jsonDec astDec (orc c).graderOutcome
        (retrieve_node (orc c).retrieveOutcome s)).documents = [] ∧
      (grade_node jsonDec astDec (orc c).graderOutcome
        (retrieve_node (orc c).retrieveOutcome s)).retries = s.retries + 1 := by
    intro c s
    have hr : (retrieve_node (orc c).retrieveOutcome s).retries = s.retries := by
      rw [hret c]; simp [retrieve_node]
    have hg := grade_node_allno jsonDec astDec (orc c).graderOutcome
      (retrieve_node (orc c).retrieveOutcome s) (hno c)
    exact ⟨hg.1, by rw [hg.2, hr]⟩
  have hs0 : (mkInitialState q dom u sess).retries = 0 := rfl
  have h0 := step 0 (mkInitialState q dom u sess)
  have e0 : loopRun jsonDec astDec orc 4 (mkInitialState q dom u sess) 0 =
      loopRun jsonDec astDec orc 3
        (rewrite_node (orc 0).rewriteOutcome
          (grade_node jsonDec astDec (orc 0).graderOutcome
            (retrieve_node (orc 0).retrieveOutcome (mkInitialState q dom u sess)))) 1 := by
    have := loopRun_rewrite_step jsonDec astDec orc 3 (mkInitialState q dom u sess) 0
      h0.1 (by have a1 := h0.2; have a2 := hs0; omega)
    simpa using this
  have hrw0 := rewrite_node_preserves (orc 0).rewriteOutcome
    (grade_node jsonDec astDec (orc 0).graderOutcome
      (retrieve_node (orc 0).retrieveOutcome (mkInitialState q dom u sess)))
  have h1 := step 1 (rewrite_node (orc 0).rewriteOutcome
    (grade_node jsonDec astDec (orc 0).graderOutcome
      (retrieve_node (orc 0).retrieveOutcome (mkInitialState q dom u sess))))
  have e1 : loopRun jsonDec astDec orc 3
        (rewrite_node (orc 0).rewriteOutcome
          (grade_node jsonDec astDec (orc 0).graderOutcome
            (retrieve_node (orc 0).retrieveOutcome (mkInitialState q dom u sess)))) 1 =
      loopRun jsonDec astDec orc 2
        (rewrite_node (orc 1).rewriteOutcome
          (grade_node jsonDec astDec (orc 1).graderOutcome
            (retrieve_node (orc 1).retrieveOutcome
              (rewrite_node (orc 0).rewriteOutcome
                (grade_node jsonDec astDec (orc 0).graderOutcome
                  (retrieve_node (orc 0).retrieveOutcome (mkInitialState q dom u sess))))))) 2 := by
    have := loopRun_rewrite_step jsonDec astDec orc 2 _ 1 h1.1
      (by have a1 := h1.2; have a2 := hrw0.1; have a3 := h0.2; have a4 := hs0; omega)
    simpa using this
  have hrw1 := rewrite_node_preserves (orc 1).rewriteOutcome
    (grade_node jsonDec astDec (orc 1).graderOutcome
      (retrieve_node (orc 1).retrieveOutcome
        (rewrite_node (orc 0).rewriteOutcome
          (grade_node jsonDec astDec (orc 0).graderOutcome
            (retrieve_node (orc 0).retrieveOutcome (mkInitialState q dom u sess))))))
  have h2 := step 2 (rewrite_node (orc 1).rewriteOutcome
    (grade_node jsonDec astDec (orc 1).graderOutcome
      (retrieve_node (orc 1).retrieveOutcome (rewrite_node (orc 0).rewriteOutcome
        (grade_node jsonDec astDec (orc 0).graderOutcome
          (retrieve_node (orc 0).retrieveOutcome (mkInitialState q dom u sess)))))))
  have e2 : loopRun jsonDec astDec orc 2
        (rewrite_node (orc 1).rewriteOutcome
          (grade_node jsonDec astDec (orc 1).graderOutcome
            (retrieve_node (orc 1).retrieveOutcome
              (rewrite_node (orc 0).rewriteOutcome
                (grade_node jsonDec astDec (orc 0).graderOutcome
                  (retrieve_node (orc 0).retrieveOutcome (mkInitialState q dom u sess))))))) 2 =
      (graceful_fail_node
        (grade_node jsonDec astDec (orc 2).graderOutcome
          (retrieve_node (orc 2).retrieveOutcome
            (rewrite_node (orc 1).rewriteOutcome
              (grade_node jsonDec astDec (orc 1).graderOutcome
                (retrieve_node (orc 1).retrieveOutcome
                  (rewrite_node (orc 0).rewriteOutcome
                    (grade_node jsonDec astDec (orc 0).graderOutcome
                      (retrieve_node (orc 0).retrieveOutcome
                        (mkInitialState q dom u sess))))))))), "fail", 3) := by
    have := loopRun_fail_step jsonDec astDec orc 1 _ 2 h2.1
      (by have a1 := h2.2; have a2 := hrw1.1; have a3 := h1.2; have a4 := hrw0.1
          have a5 := h0.2; have a6 := hs0; omega)
    simpa using this
  rw [e0, e1, e2]
  simp [graceful_fail_node]

/-- Cycle oracle for the C7 witness: retrieval succeeds with no hits, the
grader rejects everything. -/
def c7Oracle : Nat → CycleOracle :=
  fun _ =>
    { retrieveOutcome := ExtCall.ok []
      graderOutcome := graderNo
      rewriteOutcome := ExtCall.ok "rewritten query" }

/-- Witness for C7: the all-rejecting concrete run reaches the Fail terminal
in 3 cycles. -/
theorem C7_theorem_witness :
    (loopRun jdecNone jdecNone c7Oracle 4 (mkInitialState "q" "HR Operations" "u" "sess") 0).2.1
      = "fail" ∧
    (loopRun jdecNone jdecNone c7Oracle 4 (mkInitialState "q" "HR Operations" "u" "sess") 0).2.2
      = 3 ∧
    (loopRun jdecNone jdecNone c7Oracle 4
        (mkInitialState "q" "HR Operations" "u" "sess") 0).1.generation = fallbackMessage ∧
    (loopRun jdecNone jdecNone c7Oracle 4
        (mkInitialState "q" "HR Operations" "u" "sess") 0).1.is_grounded = false ∧
    (loopRun jdecNone jdecNone c7Oracle 4
        (mkInitialState "q" "HR Operations" "u" "sess") 0).1.should_store_memory = false :=
  C7_theorem jdecNone jdecNone c7Oracle (fun _ => []) "q" "HR Operations" "u" "sess"
    (fun _ => rfl) (fun _ _ => rfl)

/-! ## C8 — page-question classification and zero-chunk page answers -/

/-- The concrete question of Scenario B. -/
def c8Question : String := "what's on page 7?"

/-- The classified state of the Scenario B request. -/
def c8Classified : AgentState :=
  check_memory_question_node (mkInitialState c8Question "IT Service Desk" "u" "sess")

/-- The state after `page_retrieve_node` found zero chunks for page 7 (both
`get_page_content` and the `search_by_page` fallback return empty lists). -/
def c8ZeroState : AgentState :=
  page_retrieve_node (ExtCall.ok []) (ExtCall.ok []) c8Classified

/-- Generator oracle for the counterexample: the LLM call succeeds. -/
def c8Gen : String → ExtCall String :=
  fun _ => ExtCall.ok "Page 7 discusses the quarterly results."

/-- C8 counterexample: the classification half of the claim holds
(`pageNumber = 7`, page branch), but with zero chunks and a successful
generator call `page_answer_node` sets `is_grounded = true` (grounded "by
definition"), not `false` as claimed; the generation is the model's output,
not a fixed absence statement. -/
theorem C8_counterexample :
    c8Classified.is_page_question = true ∧
    c8Classified.page_number = some 7 ∧
    route_by_question_type c8Classified = "page_retrieve" ∧
    c8ZeroState.documents = [] ∧
    (page_answer_node c8Gen c8ZeroState).is_grounded = true ∧
    (page_answer_node c8Gen c8ZeroState).generation =
      "Page 7 discusses the quarterly results." := by
  decide

/-- C8 (amended): "what's on page 7?" is classified with `pageNumber = 7` and
`isPageQuestion = true` and routed to the page branch; when PageRetrieve
finds zero chunks, `page_answer_node` calls the generator with the page
content "No content found for page 7."; if that call succeeds the generation
is the model's output and `isGrounded = true` (the node marks page answers
grounded by definition); only when the generator raises is the generation the
fixed "couldn't find content" message with `isGrounded = false`. -/
theorem C8_amended_theorem (dom u sess : String) (s : AgentState)
    (genOk genExn : String → ExtCall String) (g m : String)
    (hempty : s.documents = [])
    (hok : genOk (pageContentOf s) = ExtCall.ok g)
    (hexn : genExn (pageContentOf s) = ExtCall.exn m) :
    is_memory_question c8Question = false ∧
    extract_page_number c8Question = some 7 ∧
    (check_memory_question_node (mkInitialState c8Question dom u sess)).is_page_question
      = true ∧
    (check_memory_question_node (mkInitialState c8Question dom u sess)).page_number
      = some 7 ∧
    route_by_question_type (check_memory_question_node (mkInitialState c8Question dom u sess))
      = "page_retrieve" ∧
    pageContentOf s =
      "No content found for page " ++ toString (s.page_number.getD 1) ++ "." ∧
    (page_answer_node genOk s).generation = g ∧
    (page_answer_node genOk s).is_grounded = true ∧
    (page_answer_node genOk s).should_store_memory = true ∧
    (page_answer_node genExn s).generation =
      "I couldn't find content for page " ++ toString (s.page_number.getD 1) ++
        ". Please check the page number and try again." ∧
    (page_answer_node genExn s).is_grounded = false ∧
    (page_answer_node genExn s).should_store_memory = false := by
  refine ⟨by decide, by decide, ?_, ?_, ?_, ?_, ?_, ?_, ?_, ?_, ?_, ?_⟩
  · simp [check_memory_question_node, mkInitialState]; decide
  · simp [check_memory_question_node, mkInitialState]; decide
  · simp [route_by_question_type, check_memory_question_node, mkInitialState]; decide
  · simp [pageContentOf, hempty]
  · simp [page_answer_node, hok]
  · simp [page_answer_node, hok]
  · simp [page_answer_node, hok]
  · simp [page_answer_node, hexn]
  · simp [page_answer_node, hexn]
  · simp [page_answer_node, hexn]

/-- Witness for C8 (amended) at the zero-chunk fixture with both generator
behaviours. -/
theorem C8_amended_theorem_witness :
    c8ZeroState.documents = [] ∧
    c8Gen (pageContentOf c8ZeroState) =
      ExtCall.ok "Page 7 discusses the quarterly results." ∧
    (fun (_ : String) => ExtCall.exn (α := String) "generator down")
        (pageContentOf c8ZeroState) = ExtCall.exn "generator down" ∧
    ((page_answer_node c8Gen c8ZeroState).generation =
       "Page 7 discusses the quarterly results." ∧
     (page_answer_node (fun _ => ExtCall.exn "generator down") c8ZeroState).generation =
       "I couldn't find content for page " ++ toString (c8ZeroState.page_number.getD 1) ++
         ". Please check the page number and try again." ∧
     (page_answer_node (fun _ => ExtCall.exn "generator down") c8ZeroState).is_grounded
       = false) := by
  have h := C8_amended_theorem "IT Service Desk" "u" "sess" c8ZeroState
    c8Gen (fun _ => ExtCall.exn "generator down")
    "Page 7 discusses the quarterly results." "generator down"
    (by decide) rfl rfl
  exact ⟨by decide, rfl, rfl, h.2.2.2.2.2.2.1, h.2.2.2.2.2.2.2.2.2.1, h.2.2.2.2.2.2.2.2.2.2.1⟩

/-! ## C9 — short-term memory round-trip -/

/-- `(a ++ b).data = a.data ++ b.data`. -/
theorem str_data_append (a b : String) : (a ++ b).data = a.data ++ b.data := by
  cases a; cases b; rfl

/-- Formalisation of "the shortTerm context string includes the pair (q, a),
with the most recent exchange appearing last": the context ends with the
formatted block `Q: q⏎    A: a` of that exchange. -/
def pairIncludedLast (ctx q a : String) : Prop :=
  ∃ p : List Char,
    ctx.data = p ++ ("Q: ".data ++ q.data ++ ("\n    A: ".data ++ a.data))

/-- `formatEntries` over a list with a last element. -/
theorem formatEntries_append (e : Exchange) :
    ∀ (h2 : List Exchange) (i : Nat),
      formatEntries i (h2 ++ [e]) = formatEntries i h2 ++ [entryStr (i + h2.length) e] := by
  intro h2
  induction h2 with
  | nil => intro i; simp [formatEntries]
  | cons x xs ih =>
      intro i
      rw [List.cons_append]
      show entryStr i x :: formatEntries (i + 1) (xs ++ [e]) =
        entryStr i x :: formatEntries (i + 1) xs ++ [entryStr (i + (x :: xs).length) e]
      rw [ih (i + 1),
        show i + 1 + xs.length = i + (x :: xs).length from by
          simp only [List.length_cons]; omega]
      simp [List.cons_append]

/-- `"\n".join` of a list with a last element ends with that element. -/
theorem pyJoin_last (sep : String) (y : String) :
    ∀ (xs : List String), ∃ p : List Char, (pyJoin sep (xs ++ [y])).data = p ++ y.data := by
  intro xs
  induction xs with
  | nil => exact ⟨[], by simp [pyJoin]⟩
  | cons x xs ih =>
      obtain ⟨p, hp⟩ := ih
      cases xs with
      | nil =>
          refine ⟨x.data ++ sep.data, ?_⟩
          simp [pyJoin, str_data_append, List.append_assoc]
      | cons z zs =>
          refine ⟨x.data ++ sep.data ++ p, ?_⟩
          simp only [List.cons_append, List.append_eq, pyJoin, str_data_append,
            List.append_assoc]
          simp only [List.cons_append, List.append_eq] at hp
          rw [hp]

/-- Appending to a bounded deque keeps the new element last. -/
theorem pushBounded_eq (old : List Exchange) (e : Exchange) :
    pushBounded 10 old e = old.drop (old.length + 1 - 10) ++ [e] := by
  unfold pushBounded
  simp only [List.length_append, List.length_cons, List.length_nil]
  exact List.drop_append_of_le_length (by omega)

/-- Taking the last `n ≥ 1` elements of a list ending in `e` keeps `e` last. -/
theorem lastN_append_single (l : List Exchange) (e : Exchange) (n : Nat) (hn : 1 ≤ n) :
    (l ++ [e]).drop ((l ++ [e]).length - n) = l.drop (l.length + 1 - n) ++ [e] := by
  simp only [List.length_append, List.length_cons, List.length_nil]
  exact List.drop_append_of_le_length (by omega)

/-- C9 (amended): after `MemoryManager.add_exchange(s,u,q,a,...)`, a
subsequent `get_context(s,u,·,·)` returns a `short_term` string containing
the new pair with the most recent exchange last, PROVIDED the question is at
most 100 characters and the answer at most 150 (longer texts are truncated to
a 100/150-character prefix plus `"..."` and then appear only truncated). -/
theorem C9_amended_theorem (store : MemStore)
    (sess user q a dom ltOracle query : String) (slt : Bool)
    (hq : pyLen q ≤ 100) (ha : pyLen a ≤ 150) :
    pairIncludedLast
      ((mm_get_context (mm_add_exchange store sess user q a dom slt)
          ltOracle sess user query).short_term) q a := by
  set old := store (stmKey sess user) with hold
  set mid := old.drop (old.length + 1 - 10) with hmid
  set h2 := mid.drop (mid.length + 1 - 3) with hh2
  have hctx : (mm_get_context (mm_add_exchange store sess user q a dom slt)
      ltOracle sess user query).short_term =
      stm_format_for_prompt (stm_add_exchange store sess user q a dom) sess user 3 := rfl
  have hstore : (stm_add_exchange store sess user q a dom) (stmKey sess user) =
      pushBounded 10 old ⟨q, a, dom⟩ := by
    simp [stm_add_exchange, hold]
  have hhist : stm_get_history (stm_add_exchange store sess user q a dom) sess user 3 =
      h2 ++ [⟨q, a, dom⟩] := by
    unfold stm_get_history
    rw [hstore, pushBounded_eq]
    exact lastN_append_single mid _ 3 (by omega)
  have hne : (stm_get_history (stm_add_exchange store sess user q a dom) sess user 3).isEmpty
      = false := by
    rw [hhist]; simp
  have hfmt : stm_format_for_prompt (stm_add_exchange store sess user q a dom) sess user 3 =
      pyJoin "\n" (formatEntries 1 (stm_get_history
        (stm_add_exchange store sess user q a dom) sess user 3)) := by
    show (if (stm_get_history (stm_add_exchange store sess user q a dom)
        sess user 3).isEmpty = true then "No previous conversation."
      else pyJoin "\n" (formatEntries 1 (stm_get_history
        (stm_add_exchange store sess user q a dom) sess user 3))) = _
    rw [hne]
    simp
  rw [hctx, hfmt, hhist, formatEntries_append]
  obtain ⟨p0, hp0⟩ := pyJoin_last "\n" (entryStr (1 + h2.length) ⟨q, a, dom⟩)
    (formatEntries 1 h2)
  unfold pairIncludedLast
  refine ⟨p0 ++ (("[" : String).data ++ (toString (1 + h2.length)).data ++
    ("] " : String).data), ?_⟩
  rw [hp0]
  have htq : truncQ q = q := by
    unfold truncQ
    rw [if_neg (by omega)]
  have hta : truncA a = a := by
    unfold truncA
    rw [if_neg (by omega)]
  have hsplit : ("] Q: " : String).data = ("] " : String).data ++ ("Q: " : String).data := rfl
  simp only [entryStr, htq, hta, str_data_append, hsplit, List.append_assoc]
  simp [List.cons_append]

/-- A 101-character question (100 `'a'`s then `'z'`): long enough to trigger
the 100-character truncation, with a final character that survives nowhere. -/
def qLong : String := String.mk (List.replicate 100 'a' ++ ['z'])

/-- The store after adding the long exchange to an empty short-term memory. -/
def c9Store : MemStore := mm_add_exchange emptyStore "sess1" "user1" qLong "b" "general" false

/-- The `short_term` context string returned after storing the long
exchange. -/
def c9Short : String := (mm_get_context c9Store "no long-term" "sess1" "user1" "query").short_term

/-- C9 counterexample: for a question longer than 100 characters the claim
fails — `format_for_prompt` truncates the stored question to its
100-character prefix plus `"..."`, so the returned `shortTerm` does not
contain the pair (q, a): the final character `'z'` of `q` does not occur in
the context string at all. -/
theorem C9_counterexample :
    pyLen qLong = 101 ∧ ¬ pairIncludedLast c9Short qLong "b" := by
  refine ⟨by decide, ?_⟩
  unfold pairIncludedLast
  rintro ⟨p, hp⟩
  have hzq : 'z' ∈ qLong.data := by decide
  have hzin : 'z' ∈ c9Short.data := by
    rw [hp]
    simp [hzq]
  exact absurd hzin (by decide)

/-- Witness for C9 (amended) at a concrete short exchange. -/
theorem C9_amended_theorem_witness :
    pyLen "Where is the HR office?" ≤ 100 ∧
    pyLen "Building 5, floor 2." ≤ 150 ∧
    pairIncludedLast
      ((mm_get_context
          (mm_add_exchange emptyStore "sess1" "user1" "Where is the HR office?"
            "Building 5, floor 2." "HR Operations" true)
          "lt" "sess1" "user1" "qq").short_term)
      "Where is the HR office?" "Building 5, floor 2." :=
  ⟨by decide, by decide,
   C9_amended_theorem emptyStore "sess1" "user1" "Where is the HR office?"
     "Building 5, floor 2." "HR Operations" "lt" "qq" true (by decide) (by decide)⟩
